import Mathlib

/-!
Verification of the Linkary metadata-extraction and graph-projection core.

The definitions below are a shallow embedding of the relevant JavaScript
source files:

- backend/src/utils/urlMetadata.js : the function extractMetadata.
  The two platform effects of that function are passed in as explicit
  inputs: the outcome of the bounded HTTP fetch plus cheerio HTML parse
  (an Option Page, none meaning the axios request or parse threw), and
  the outcome of the platform URL constructor new URL(url) applied to the
  input string (an Option ParsedUrl, none meaning the constructor threw).
  A JavaScript exception escaping a try block is modelled by Option: the
  body returns none where the source throws, and the catch handler is the
  none branch.

- the link controller (createLink, updateLink, getGraphData) and the
  mongoose link schema. The document store is modelled as a list of
  LinkDoc values; Mongoose populate on an array of references replaces
  each referenced id with the referenced document and silently drops
  references that do not resolve, which is modelled with filterMap and
  find?.

JavaScript string truthiness (undefined and the empty string are falsy)
is modelled by jsOr; the platform string methods trim and startsWith are
modelled by jsTrim and jsStartsWith over the character list of the
string, so that every definition evaluates inside the kernel.
-/

set_option autoImplicit false

namespace Linkary

/-- Result record of the metadata extractor: title, description, image and
favicon, all strings, empty string standing for an unknown value. -/
structure Metadata where
  title : String
  description : String
  image : String
  favicon : String
deriving DecidableEq

/-- Outcome of the platform URL constructor new URL(url): the scheme
(without the trailing colon), the host (possibly with a port) and the
hostname (without a port). -/
structure ParsedUrl where
  scheme : String
  host : String
  hostname : String
deriving DecidableEq

/-- The protocol property of a JavaScript URL object includes the trailing
colon, e.g. "https:". -/
def ParsedUrl.protocol (u : ParsedUrl) : String :=
  u.scheme ++ ":"

/-- Outcome of loading the fetched HTML with cheerio, restricted to the
ten selector reads performed by extractMetadata.  A none field means the
selected element or attribute is absent (attr returns undefined); the
text() call on the title element always yields a string, empty when the
element is missing. -/
structure Page where
  ogTitle : Option String
  twitterTitle : Option String
  titleText : String
  ogDescription : Option String
  twitterDescription : Option String
  metaDescription : Option String
  ogImage : Option String
  twitterImage : Option String
  iconHref : Option String
  shortcutIconHref : Option String
deriving DecidableEq

/-- JavaScript a || b for a an optional string and b a string: undefined
and the empty string are falsy, every other string is truthy. -/
def jsOr (x : Option String) (y : String) : String :=
  match x with
  | some s => if s = "" then y else s
  | none => y

/-- Model of the JavaScript string method trim: remove leading and
trailing whitespace.  Written over the character list so that it reduces
inside the kernel. -/
def jsTrim (s : String) : String :=
  ⟨((s.data.dropWhile Char.isWhitespace).reverse.dropWhile Char.isWhitespace).reverse⟩

/-- Model of the JavaScript string method startsWith, written over the
character lists so that it reduces inside the kernel. -/
def jsStartsWith (s p : String) : Bool :=
  p.data.isPrefixOf s.data

/-- Template string from urlMetadata.js used for a relative asset:
protocol, two slashes, host, a slash unless the asset already begins with
one, then the asset. -/
def resolveToOrigin (u : ParsedUrl) (asset : String) : String :=
  u.protocol ++ "//" ++ u.host ++ (if jsStartsWith asset "/" then "" else "/") ++ asset

/-- The image candidate read from the page, urlMetadata.js lines 37-40:
Open Graph image, else Twitter image, else the empty string. -/
def extractedImageRaw (pg : Page) : String :=
  jsOr pg.ogImage (jsOr pg.twitterImage "")

/-- The favicon candidate read from the page, urlMetadata.js lines 49-52:
the icon link, else the shortcut icon link, else the empty string. -/
def extractedFaviconRaw (pg : Page) : String :=
  jsOr pg.iconHref (jsOr pg.shortcutIconHref "")

/-- Lines 43-46 of urlMetadata.js: a non-empty image that does not start
with "http" is resolved against the page origin; this branch calls
new URL(url), so when the URL constructor throws (purl is none) the
function escapes to the catch handler, modelled by none. -/
def resolveImage (purl : Option ParsedUrl) (image : String) : Option String :=
  if image ≠ "" ∧ jsStartsWith image "http" = false then
    match purl with
    | some u => some (resolveToOrigin u image)
    | none => none
  else
    some image

/-- Lines 55-62 of urlMetadata.js: a non-empty favicon that does not start
with "http" is resolved against the page origin; an absent favicon is
synthesized as protocol//host/favicon.ico; both branches call new URL(url)
and therefore escape (none) when the URL constructor throws. -/
def resolveFavicon (purl : Option ParsedUrl) (favicon : String) : Option String :=
  if favicon ≠ "" ∧ jsStartsWith favicon "http" = false then
    match purl with
    | some u => some (resolveToOrigin u favicon)
    | none => none
  else if favicon = "" then
    match purl with
    | some u => some (u.protocol ++ "//" ++ u.host ++ "/favicon.ico")
    | none => none
  else
    some favicon

/-- The try body of extractMetadata on a successfully fetched page, lines
22-69: ordered fallback for title and description (trimmed at the return),
image and favicon resolution.  Returns none where the source would throw
out of the try body (only possible when the URL constructor throws). -/
def tryExtract (purl : Option ParsedUrl) (pg : Page) : Option Metadata :=
  match resolveImage purl (extractedImageRaw pg) with
  | none => none
  | some image =>
    match resolveFavicon purl (extractedFaviconRaw pg) with
    | none => none
    | some favicon =>
      some { title := jsTrim (jsOr pg.ogTitle (jsOr pg.twitterTitle pg.titleText))
           , description := jsTrim (jsOr pg.ogDescription
                (jsOr pg.twitterDescription (jsOr pg.metaDescription "")))
           , image := image
           , favicon := favicon }

/-- The catch handler of extractMetadata, lines 70-90: when the URL string
parses, return hostname as the title and a synthesized favicon; when even
the URL constructor throws, return the raw input string as the title and
all other fields empty. -/
def fallbackMetadata (url : String) (purl : Option ParsedUrl) : Metadata :=
  match purl with
  | some u =>
      { title := u.hostname
      , description := ""
      , image := ""
      , favicon := u.protocol ++ "//" ++ u.host ++ "/favicon.ico" }
  | none =>
      { title := url
      , description := ""
      , image := ""
      , favicon := "" }

/-- extractMetadata from urlMetadata.js.  The fetched argument is the
outcome of the axios GET plus cheerio load (none: the fetch threw or timed
out); purl is the outcome of new URL(url).  Any throw inside the try body
falls through to the catch handler fallbackMetadata. -/
def extractMetadata (url : String) (purl : Option ParsedUrl) (fetched : Option Page) : Metadata :=
  match fetched with
  | none => fallbackMetadata url purl
  | some pg =>
    match tryExtract purl pg with
    | some m => m
    | none => fallbackMetadata url purl

lemma protocol_slashes (u : ParsedUrl) : u.protocol ++ "//" = u.scheme ++ "://" := by
  unfold ParsedUrl.protocol
  rw [String.append_assoc]
  congr 1

lemma resolveImage_parsed (u : ParsedUrl) (image : String) :
    resolveImage (some u) image =
      some (if image ≠ "" ∧ jsStartsWith image "http" = false
            then resolveToOrigin u image else image) := by
  unfold resolveImage
  by_cases h : image ≠ "" ∧ jsStartsWith image "http" = false <;> simp [h]

lemma resolveFavicon_parsed (u : ParsedUrl) (favicon : String) :
    resolveFavicon (some u) favicon =
      some (if favicon ≠ "" ∧ jsStartsWith favicon "http" = false
            then resolveToOrigin u favicon
            else if favicon = "" then u.protocol ++ "//" ++ u.host ++ "/favicon.ico"
            else favicon) := by
  unfold resolveFavicon
  by_cases h1 : favicon ≠ "" ∧ jsStartsWith favicon "http" = false
  · simp [h1]
  · by_cases h2 : favicon = ""
    · simp [h1, h2]
    · have h3 : ¬ jsStartsWith favicon "http" = false := fun hb => h1 ⟨h2, hb⟩
      simp [h1, h2, h3]

/-- On a fetched page with a parseable URL the extractor always returns
the computed metadata record (the try body cannot throw). -/
lemma extractMetadata_parsed (url : String) (u : ParsedUrl) (pg : Page) :
    extractMetadata url (some u) (some pg) =
      { title := jsTrim (jsOr pg.ogTitle (jsOr pg.twitterTitle pg.titleText))
      , description := jsTrim (jsOr pg.ogDescription
            (jsOr pg.twitterDescription (jsOr pg.metaDescription "")))
      , image := if extractedImageRaw pg ≠ "" ∧ jsStartsWith (extractedImageRaw pg) "http" = false
            then resolveToOrigin u (extractedImageRaw pg) else extractedImageRaw pg
      , favicon := if extractedFaviconRaw pg ≠ "" ∧ jsStartsWith (extractedFaviconRaw pg) "http" = false
            then resolveToOrigin u (extractedFaviconRaw pg)
            else if extractedFaviconRaw pg = "" then u.protocol ++ "//" ++ u.host ++ "/favicon.ico"
            else extractedFaviconRaw pg } := by
  simp only [extractMetadata, tryExtract, resolveImage_parsed, resolveFavicon_parsed]

/-- C1: on any fetch or parse failure the extractor degrades instead of
throwing: with a parseable URL it returns the hostname as title, empty
description and image, and the synthesized scheme://host/favicon.ico
favicon; with an unparseable URL string it returns the raw input string as
title and every other field empty. -/
theorem C1_extract_total_fallback :
    (∀ (url : String) (u : ParsedUrl),
      extractMetadata url (some u) none =
        { title := u.hostname
        , description := ""
        , image := ""
        , favicon := u.scheme ++ "://" ++ u.host ++ "/favicon.ico" })
    ∧ (∀ url : String,
      extractMetadata url none none =
        { title := url, description := "", image := "", favicon := "" }) := by
  constructor
  · intro url u
    simp only [extractMetadata, fallbackMetadata]
    rw [protocol_slashes]
  · intro url
    rfl

/-- Spec-side title resolution, written from the specification words: try
the Open Graph title, then the Twitter-card title, then the title element
text, in this order; the first non-empty value wins and is trimmed; the
title defaults to the empty string when none of the three match. -/
def specTitleResolution (pg : Page) : String :=
  if pg.ogTitle.getD "" ≠ "" then jsTrim (pg.ogTitle.getD "")
  else if pg.twitterTitle.getD "" ≠ "" then jsTrim (pg.twitterTitle.getD "")
  else if pg.titleText ≠ "" then jsTrim pg.titleText
  else ""

@[simp] lemma jsTrim_empty : jsTrim "" = "" := rfl

lemma jsOr_chain_eq_spec (a b : Option String) (c : String) :
    jsTrim (jsOr a (jsOr b c)) =
      (if a.getD "" ≠ "" then jsTrim (a.getD "")
       else if b.getD "" ≠ "" then jsTrim (b.getD "")
       else if c ≠ "" then jsTrim c
       else "") := by
  rcases a with _ | sa
  · rcases b with _ | sb
    · by_cases hc : c = "" <;> simp [jsOr, hc]
    · by_cases hb : sb = ""
      · by_cases hc : c = "" <;> simp [jsOr, hb, hc]
      · simp [jsOr, hb]
  · by_cases ha : sa = ""
    · rcases b with _ | sb
      · by_cases hc : c = "" <;> simp [jsOr, ha, hc]
      · by_cases hb : sb = ""
        · by_cases hc : c = "" <;> simp [jsOr, ha, hb, hc]
        · simp [jsOr, ha, hb]
    · simp [jsOr, ha]

/-- C6: on every successfully fetched and parsed page (with a parseable
source URL) the extracted title is the first non-empty value among the
Open Graph title, the Twitter-card title and the title element text, in
this order, trimmed of surrounding whitespace, and empty when none of the
three match. -/
theorem C6_title_ordered_fallback (url : String) (u : ParsedUrl) (pg : Page) :
    (extractMetadata url (some u) (some pg)).title = specTitleResolution pg := by
  rw [extractMetadata_parsed]
  exact jsOr_chain_eq_spec pg.ogTitle pg.twitterTitle pg.titleText

/-- C7 counterexample: at the page https://example.com/blog/post whose
Open Graph image content is the string "httpx.png" -- a value that is not
an absolute URL since it starts with no recognized scheme -- the code
leaves the image as "httpx.png" instead of resolving it against the
origin, because its test is merely that the string does not start with
the literal prefix "http". -/
theorem C7_counterexample :
    (extractMetadata "https://example.com/blog/post"
        (some { scheme := "https", host := "example.com", hostname := "example.com" })
        (some { ogTitle := none, twitterTitle := none, titleText := ""
              , ogDescription := none, twitterDescription := none, metaDescription := none
              , ogImage := some "httpx.png", twitterImage := none
              , iconHref := none, shortcutIconHref := none })).image = "httpx.png"
    ∧ (extractMetadata "https://example.com/blog/post"
        (some { scheme := "https", host := "example.com", hostname := "example.com" })
        (some { ogTitle := none, twitterTitle := none, titleText := ""
              , ogDescription := none, twitterDescription := none, metaDescription := none
              , ogImage := some "httpx.png", twitterImage := none
              , iconHref := none, shortcutIconHref := none })).image
        ≠ "https://example.com/httpx.png" := by
  constructor
  · decide
  · decide

/-- C7 (amended): for a page at https://example.com/blog/post whose Open
Graph image content is /img/cover.png the returned image equals
https://example.com/img/cover.png; in general, whenever the extracted
image is non-empty and does not start with the literal prefix "http", it
is resolved against the source page origin (scheme and host, plus a
separating slash when the value has none), not against the page path. -/
theorem C7_image_origin_resolution (url : String) (u : ParsedUrl) (pg : Page)
    (h1 : extractedImageRaw pg ≠ "")
    (h2 : jsStartsWith (extractedImageRaw pg) "http" = false) :
    (extractMetadata url (some u) (some pg)).image =
      u.scheme ++ "://" ++ u.host
        ++ (if jsStartsWith (extractedImageRaw pg) "/" then "" else "/")
        ++ extractedImageRaw pg := by
  rw [extractMetadata_parsed]
  show (if extractedImageRaw pg ≠ "" ∧ jsStartsWith (extractedImageRaw pg) "http" = false
        then resolveToOrigin u (extractedImageRaw pg) else extractedImageRaw pg) = _
  rw [if_pos ⟨h1, h2⟩]
  unfold resolveToOrigin
  rw [protocol_slashes]

/-- C7 witness: the amended theorem applied to the page of the spec
example yields exactly https://example.com/img/cover.png. -/
theorem C7_image_origin_resolution_witness :
    (extractMetadata "https://example.com/blog/post"
        (some { scheme := "https", host := "example.com", hostname := "example.com" })
        (some { ogTitle := none, twitterTitle := none, titleText := ""
              , ogDescription := none, twitterDescription := none, metaDescription := none
              , ogImage := some "/img/cover.png", twitterImage := none
              , iconHref := none, shortcutIconHref := none })).image
      = "https://example.com/img/cover.png" := by
  rw [C7_image_origin_resolution "https://example.com/blog/post"
        { scheme := "https", host := "example.com", hostname := "example.com" }
        { ogTitle := none, twitterTitle := none, titleText := ""
        , ogDescription := none, twitterDescription := none, metaDescription := none
        , ogImage := some "/img/cover.png", twitterImage := none
        , iconHref := none, shortcutIconHref := none }
        (by decide) (by decide)]
  decide

/-- A stored link document, after the mongoose link schema: ids are the
string form of the ObjectId, relatedLinks holds referenced ids, and the
two timestamps are modelled as naturals. -/
structure LinkDoc where
  id : String
  url : String
  title : String
  description : String
  favicon : String
  image : String
  tags : List String
  category : String
  relatedLinks : List String
  notes : String
  createdAt : Nat
  updatedAt : Nat
deriving DecidableEq

/-- A node of the graph payload built by getGraphData. -/
structure GraphNode where
  id : String
  label : String
  url : String
  category : String
  tags : List String
deriving DecidableEq

/-- An edge of the graph payload built by getGraphData. -/
structure GraphEdge where
  source : String
  target : String
deriving DecidableEq

/-- The graph payload of the graph endpoint. -/
structure GraphData where
  nodes : List GraphNode
  edges : List GraphEdge
deriving DecidableEq

/-- Mongoose populate on the relatedLinks array: each referenced id is
replaced by the referenced document, and references that resolve to no
document in the collection are silently dropped from the array. -/
def populateRelated (db : List LinkDoc) (l : LinkDoc) : List LinkDoc :=
  l.relatedLinks.filterMap (fun t => db.find? (fun r => r.id == t))

/-- The node built for one link in getGraphData: label is the title when
truthy, else the raw url (JavaScript or on two strings). -/
def nodeOf (l : LinkDoc) : GraphNode :=
  { id := l.id
  , label := if l.title = "" then l.url else l.title
  , url := l.url
  , category := l.category
  , tags := l.tags }

/-- getGraphData from the link controller: one node per stored link, and
for every link one edge per populated related document, from the link to
the related document. -/
def getGraphData (db : List LinkDoc) : GraphData :=
  { nodes := db.map nodeOf
  , edges := db.flatMap (fun l =>
      (populateRelated db l).map (fun r => { source := l.id, target := r.id })) }

/-- C4: the projection emits exactly one node per input record, in input
order, each node carrying id, label, url, category and tags with the
label equal to the title when it is non-empty and to the raw url
otherwise; the nodes are unchanged under any rewriting of the relation
lists. -/
theorem C4_node_per_record (db : List LinkDoc) (f : LinkDoc → List String) :
    (getGraphData db).nodes.length = db.length
    ∧ (getGraphData db).nodes = db.map (fun l =>
        { id := l.id
        , label := if l.title = "" then l.url else l.title
        , url := l.url
        , category := l.category
        , tags := l.tags })
    ∧ (getGraphData (db.map (fun l => { l with relatedLinks := f l }))).nodes
        = (getGraphData db).nodes := by
  refine ⟨?_, rfl, ?_⟩
  · simp [getGraphData]
  · simp only [getGraphData, List.map_map]
    rfl

/-- C5: an identifier listed in relatedLinks but not carried by any input
record yields no edge: every produced edge targets the id of some present
record, so a dangling reference is silently omitted. -/
theorem C5_dangling_reference_omitted (db : List LinkDoc) (t : String)
    (h : ∀ l ∈ db, l.id ≠ t) :
    ∀ e ∈ (getGraphData db).edges, e.target ≠ t := by
  intro e he
  simp only [getGraphData, List.mem_flatMap] at he
  obtain ⟨l, _, hmem⟩ := he
  simp only [List.mem_map] at hmem
  obtain ⟨r, hr, rfl⟩ := hmem
  simp only [populateRelated, List.mem_filterMap] at hr
  obtain ⟨tid, _, hfind⟩ := hr
  exact h r (List.mem_of_find?_eq_some hfind)

/-- C5 witness: a record relating to the absent id ghost produces no edge
targeting ghost. -/
theorem C5_dangling_reference_omitted_witness :
    (∀ l ∈ [{ id := "a", url := "https://a.example", title := "A", description := ""
            , favicon := "", image := "", tags := [], category := "Uncategorized"
            , relatedLinks := ["ghost"], notes := "", createdAt := 1, updatedAt := 1 : LinkDoc}],
        l.id ≠ "ghost")
    ∧ ∀ e ∈ (getGraphData
          [{ id := "a", url := "https://a.example", title := "A", description := ""
           , favicon := "", image := "", tags := [], category := "Uncategorized"
           , relatedLinks := ["ghost"], notes := "", createdAt := 1, updatedAt := 1 : LinkDoc}]).edges,
        e.target ≠ "ghost" :=
  ⟨by decide, C5_dangling_reference_omitted _ "ghost" (by decide)⟩

/-- C10: the projection is edge-closed over its node set: both endpoints
of every emitted edge are ids of emitted nodes. -/
theorem C10_edges_closed_over_nodes (db : List LinkDoc) (e : GraphEdge)
    (he : e ∈ (getGraphData db).edges) :
    (∃ n ∈ (getGraphData db).nodes, n.id = e.source)
    ∧ (∃ n ∈ (getGraphData db).nodes, n.id = e.target) := by
  simp only [getGraphData, List.mem_flatMap] at he
  obtain ⟨l, hl, hmem⟩ := he
  simp only [List.mem_map] at hmem
  obtain ⟨r, hr, rfl⟩ := hmem
  simp only [populateRelated, List.mem_filterMap] at hr
  obtain ⟨tid, _, hfind⟩ := hr
  have hrdb : r ∈ db := List.mem_of_find?_eq_some hfind
  constructor
  · exact ⟨nodeOf l, List.mem_map_of_mem nodeOf hl, rfl⟩
  · exact ⟨nodeOf r, List.mem_map_of_mem nodeOf hrdb, rfl⟩

/-- C10 witness: in a concrete two-record store with one relation, the
single emitted edge has both endpoints among the node ids. -/
theorem C10_edges_closed_over_nodes_witness :
    ({ source := "a", target := "b" : GraphEdge} ∈ (getGraphData
        [{ id := "a", url := "https://a.example", title := "A", description := ""
         , favicon := "", image := "", tags := [], category := "Uncategorized"
         , relatedLinks := ["b"], notes := "", createdAt := 1, updatedAt := 1 : LinkDoc},
         { id := "b", url := "https://b.example", title := "B", description := ""
         , favicon := "", image := "", tags := [], category := "Uncategorized"
         , relatedLinks := [], notes := "", createdAt := 2, updatedAt := 2 : LinkDoc}]).edges)
    ∧ ((∃ n ∈ (getGraphData
        [{ id := "a", url := "https://a.example", title := "A", description := ""
         , favicon := "", image := "", tags := [], category := "Uncategorized"
         , relatedLinks := ["b"], notes := "", createdAt := 1, updatedAt := 1 : LinkDoc},
         { id := "b", url := "https://b.example", title := "B", description := ""
         , favicon := "", image := "", tags := [], category := "Uncategorized"
         , relatedLinks := [], notes := "", createdAt := 2, updatedAt := 2 : LinkDoc}]).nodes,
        n.id = ({ source := "a", target := "b" : GraphEdge}).source)
      ∧ (∃ n ∈ (getGraphData
        [{ id := "a", url := "https://a.example", title := "A", description := ""
         , favicon := "", image := "", tags := [], category := "Uncategorized"
         , relatedLinks := ["b"], notes := "", createdAt := 1, updatedAt := 1 : LinkDoc},
         { id := "b", url := "https://b.example", title := "B", description := ""
         , favicon := "", image := "", tags := [], category := "Uncategorized"
         , relatedLinks := [], notes := "", createdAt := 2, updatedAt := 2 : LinkDoc}]).nodes,
        n.id = ({ source := "a", target := "b" : GraphEdge}).target)) :=
  ⟨by decide, C10_edges_closed_over_nodes _ _ (by decide)⟩

lemma count_edges_of_other_source (db : List LinkDoc) (l : LinkDoc) (s t : String)
    (h : l.id ≠ s) :
    ((populateRelated db l).map (fun r => { source := l.id, target := r.id : GraphEdge})).count
      { source := s, target := t } = 0 := by
  rw [List.count_eq_zero]
  intro hmem
  simp only [List.mem_map] at hmem
  obtain ⟨r, _, heq⟩ := hmem
  exact h (congrArg GraphEdge.source heq)

lemma count_edges_of_source (db : List LinkDoc) (B : LinkDoc) (hB : B ∈ db)
    (lid : String) (ts : List String) :
    (((ts.filterMap (fun t => db.find? (fun r => r.id == t))).map
        (fun r => { source := lid, target := r.id : GraphEdge})).count
      { source := lid, target := B.id }) = ts.count B.id := by
  induction ts with
  | nil => rfl
  | cons t ts ih =>
    rcases hfind : db.find? (fun r => r.id == t) with _ | r
    · have ht : t ≠ B.id := by
        intro h
        subst h
        rw [List.find?_eq_none] at hfind
        exact hfind B hB (by simp)
      simp only [List.filterMap_cons, hfind, List.count_cons]
      rw [ih]
      simp [beq_iff_eq, ht]
    · have hrid : r.id = t := by
        have := List.find?_some hfind
        simpa using this
      simp only [List.filterMap_cons, hfind, List.map_cons, List.count_cons]
      rw [ih]
      by_cases ht : t = B.id
      · subst ht
        simp [beq_iff_eq, GraphEdge.mk.injEq, hrid]
      · simp [beq_iff_eq, GraphEdge.mk.injEq, hrid, ht]

lemma count_edges_flatMap (db : List LinkDoc) (A B : LinkDoc) (hB : B ∈ db) :
    ∀ (db₁ : List LinkDoc), (∀ l ∈ db₁, l.id = A.id → l = A) →
      ((db₁.flatMap (fun l =>
          (populateRelated db l).map (fun r => { source := l.id, target := r.id : GraphEdge}))).count
        { source := A.id, target := B.id })
        = db₁.count A * A.relatedLinks.count B.id := by
  intro db₁
  induction db₁ with
  | nil => intro _; simp
  | cons l ls ih =>
    intro hinj
    rw [List.flatMap_cons, List.count_append,
        ih (fun x hx => hinj x (List.mem_cons_of_mem l hx))]
    by_cases hl : l.id = A.id
    · have hA : l = A := hinj l (List.mem_cons_self l ls) hl
      subst hA
      rw [show ((populateRelated db l).map
            (fun r => { source := l.id, target := r.id : GraphEdge})).count
            { source := l.id, target := B.id } = l.relatedLinks.count B.id from
          count_edges_of_source db B hB l.id l.relatedLinks]
      rw [List.count_cons_self]
      ring
    · rw [count_edges_of_other_source db l A.id B.id hl]
      have hne : A ≠ l := fun h => hl (congrArg LinkDoc.id h.symm)
      rw [List.count_cons_of_ne hne, Nat.zero_add]

/-- C8: when the ids of the records are pairwise distinct, record A lists
the id of record B exactly once in relatedLinks and B does not list A,
the projection emits exactly one edge from A to B: not zero and not two,
with no deduplication and no added reciprocal edge. -/
theorem C8_single_directed_edge (db : List LinkDoc) (A B : LinkDoc)
    (hnd : (db.map (fun l => l.id)).Nodup) (hA : A ∈ db) (hB : B ∈ db)
    (hlist : A.relatedLinks.count B.id = 1)
    (_hback : B.relatedLinks.count A.id = 0) :
    ((getGraphData db).edges.count { source := A.id, target := B.id }) = 1 := by
  have hinj : ∀ l ∈ db, l.id = A.id → l = A := fun l hl h =>
    List.inj_on_of_nodup_map hnd hl hA h
  have hone : db.count A = 1 :=
    List.count_eq_one_of_mem (List.Nodup.of_map _ hnd) hA
  show ((db.flatMap (fun l =>
      (populateRelated db l).map (fun r => { source := l.id, target := r.id : GraphEdge}))).count
    { source := A.id, target := B.id }) = 1
  rw [count_edges_flatMap db A B hB db hinj, hone, hlist]

/-- C8 witness: in a concrete two-record store where a lists b once and b
does not list a, the edge from a to b is emitted exactly once. -/
theorem C8_single_directed_edge_witness :
    ((getGraphData
        [{ id := "a", url := "https://a.example", title := "A", description := ""
         , favicon := "", image := "", tags := [], category := "Uncategorized"
         , relatedLinks := ["b"], notes := "", createdAt := 1, updatedAt := 1 : LinkDoc},
         { id := "b", url := "https://b.example", title := "B", description := ""
         , favicon := "", image := "", tags := [], category := "Uncategorized"
         , relatedLinks := [], notes := "", createdAt := 2, updatedAt := 2 : LinkDoc}]).edges.count
      { source := "a", target := "b" }) = 1 :=
  C8_single_directed_edge _
    { id := "a", url := "https://a.example", title := "A", description := ""
    , favicon := "", image := "", tags := [], category := "Uncategorized"
    , relatedLinks := ["b"], notes := "", createdAt := 1, updatedAt := 1 }
    { id := "b", url := "https://b.example", title := "B", description := ""
    , favicon := "", image := "", tags := [], category := "Uncategorized"
    , relatedLinks := [], notes := "", createdAt := 2, updatedAt := 2 }
    (by decide) (by decide) (by decide) (by decide) (by decide)

/-- Body of a create request: url is required, the remaining fields are
optional (absent fields are undefined in the source). -/
structure CreateReq where
  url : String
  tags : Option (List String)
  category : Option String
  notes : Option String
  relatedLinks : Option (List String)
deriving DecidableEq

/-- Outcome of the create handler: the missing-url 400 response, the
duplicate 400 response, or the created document. -/
inductive CreateResult where
  | badRequest
  | duplicate
  | created (doc : LinkDoc)
deriving DecidableEq

/-- JavaScript x || [] for an optional list: undefined gives the empty
list; any present array, even the empty one, is truthy. -/
def jsOrList (x : Option (List String)) : List String :=
  match x with
  | some l => l
  | none => []

/-- createLink from the link controller: reject a falsy url, reject when
any stored document already carries the url (findOne on url alone), else
create the document from the extracted metadata and the request, with the
category defaulting to the string Uncategorized, both timestamps set at
creation. -/
def createLink (store : List LinkDoc) (req : CreateReq) (meta : Metadata)
    (newId : String) (now : Nat) : CreateResult :=
  if req.url = "" then .badRequest
  else if store.any (fun r => r.url == req.url) then .duplicate
  else .created
    { id := newId
    , url := req.url
    , title := meta.title
    , description := meta.description
    , favicon := meta.favicon
    , image := meta.image
    , tags := jsOrList req.tags
    , category := jsOr req.category "Uncategorized"
    , relatedLinks := jsOrList req.relatedLinks
    , notes := jsOr req.notes ""
    , createdAt := now
    , updatedAt := now }

/-- C3 counterexample: a create request with no category yields a document
whose category is the string Uncategorized, not the enumerated catch-all
value Other claimed by the specification. -/
theorem C3_counterexample :
    createLink []
        { url := "https://a.example", tags := none, category := none
        , notes := none, relatedLinks := none }
        { title := "T", description := "D", image := "I", favicon := "F" }
        "id1" 7
      = .created
        { id := "id1", url := "https://a.example", title := "T", description := "D"
        , favicon := "F", image := "I", tags := [], category := "Uncategorized"
        , relatedLinks := [], notes := "", createdAt := 7, updatedAt := 7 }
    ∧ ("Uncategorized" : String) ≠ "Other" := by
  constructor
  · decide
  · decide

/-- C3 (amended): every create request with a non-empty, not-yet-stored
url and no category field produces a created document whose category is
the catch-all default string Uncategorized. -/
theorem C3_default_category (store : List LinkDoc) (req : CreateReq) (meta : Metadata)
    (newId : String) (now : Nat)
    (hurl : req.url ≠ "") (hdup : ∀ r ∈ store, r.url ≠ req.url)
    (hcat : req.category = none) :
    ∃ doc, createLink store req meta newId now = .created doc
      ∧ doc.category = "Uncategorized" := by
  have hany : store.any (fun r => r.url == req.url) = false := by
    simp only [List.any_eq_false, beq_iff_eq]
    exact hdup
  refine ⟨{ id := newId, url := req.url, title := meta.title, description := meta.description
          , favicon := meta.favicon, image := meta.image, tags := jsOrList req.tags
          , category := jsOr req.category "Uncategorized"
          , relatedLinks := jsOrList req.relatedLinks, notes := jsOr req.notes ""
          , createdAt := now, updatedAt := now }, ?_, ?_⟩
  · unfold createLink
    rw [if_neg (fun h => hurl h), hany]
    simp
  · show jsOr req.category "Uncategorized" = "Uncategorized"
    rw [hcat]
    rfl

/-- C3 witness: the amended theorem applied to the empty store and a
concrete category-free request. -/
theorem C3_default_category_witness :
    ("https://b.example" ≠ "")
    ∧ ∃ doc, createLink []
          { url := "https://b.example", tags := none, category := none
          , notes := none, relatedLinks := none }
          { title := "", description := "", image := "", favicon := "" }
          "id2" 3
        = .created doc ∧ doc.category = "Uncategorized" :=
  ⟨by decide,
   C3_default_category []
     { url := "https://b.example", tags := none, category := none
     , notes := none, relatedLinks := none }
     { title := "", description := "", image := "", favicon := "" }
     "id2" 3 (by decide) (by decide) rfl⟩

/-- Body of an update request: every updatable field is optional; a field
left undefined in the request is not touched. -/
structure UpdateReq where
  title : Option String
  description : Option String
  tags : Option (List String)
  category : Option String
  notes : Option String
  relatedLinks : Option (List String)
deriving DecidableEq

/-- updateLink from the link controller on a found document: each of the
six updatable fields is overwritten only when present in the request, and
the save triggers the pre-save hook of the link schema, which refreshes
updatedAt. -/
def updateLink (l : LinkDoc) (req : UpdateReq) (now : Nat) : LinkDoc :=
  let l1 := match req.title with
    | some v => { l with title := v }
    | none => l
  let l2 := match req.description with
    | some v => { l1 with description := v }
    | none => l1
  let l3 := match req.tags with
    | some v => { l2 with tags := v }
    | none => l2
  let l4 := match req.category with
    | some v => { l3 with category := v }
    | none => l3
  let l5 := match req.notes with
    | some v => { l4 with notes := v }
    | none => l4
  let l6 := match req.relatedLinks with
    | some v => { l5 with relatedLinks := v }
    | none => l5
  { l6 with updatedAt := now }

/-- C9: an update changes exactly the supplied fields among title,
description, tags, category, notes and relatedLinks; id, url, createdAt
(and the extracted favicon and image) are never touched, and updatedAt is
refreshed to the save time on every update. -/
theorem C9_update_frame (l : LinkDoc) (req : UpdateReq) (now : Nat) :
    (updateLink l req now).id = l.id
    ∧ (updateLink l req now).url = l.url
    ∧ (updateLink l req now).createdAt = l.createdAt
    ∧ (updateLink l req now).favicon = l.favicon
    ∧ (updateLink l req now).image = l.image
    ∧ (updateLink l req now).updatedAt = now
    ∧ (updateLink l req now).title = req.title.getD l.title
    ∧ (updateLink l req now).description = req.description.getD l.description
    ∧ (updateLink l req now).tags = req.tags.getD l.tags
    ∧ (updateLink l req now).category = req.category.getD l.category
    ∧ (updateLink l req now).notes = req.notes.getD l.notes
    ∧ (updateLink l req now).relatedLinks = req.relatedLinks.getD l.relatedLinks := by
  obtain ⟨t, d, tg, c, n, r⟩ := req
  rcases t with _ | t <;> rcases d with _ | d <;> rcases tg with _ | tg <;>
    rcases c with _ | c <;> rcases n with _ | n <;> rcases r with _ | r <;>
    simp [updateLink]

/-- Record of the ghost-owner model for the create-time duplicate check:
the url as stored, paired with the identity of the caller who created the
record.  The controller itself stores no owner and its duplicate check
findOne matches on url alone; the owner component is bookkeeping used
only to state the per-owner claim. -/
structure OwnedLink where
  owner : String
  url : String
deriving DecidableEq

/-- Outcome of the create handler in the ghost-owner model. -/
inductive OwnedCreateResult where
  | badRequest
  | duplicate
  | created (store : List OwnedLink)
deriving DecidableEq

/-- The create path of the link controller restricted to what it reads
and writes about urls, with the requesting caller tracked as a ghost
owner: reject a falsy url, reject as duplicate when any stored record --
whoever created it -- carries the url, else append the new record. -/
def createLinkOwned (store : List OwnedLink) (requester : String) (url : String) :
    OwnedCreateResult :=
  if url = "" then .badRequest
  else if store.any (fun r => r.url == url) then .duplicate
  else .created (store ++ [{ owner := requester, url := url }])

/-- C2 counterexample: with a store holding the url saved by alice, a
create of the same url on behalf of bob is rejected as a duplicate even
though bob owns no record with that url, so rejection is not scoped to
the same owner and the same url cannot be saved independently by two
different owners. -/
theorem C2_counterexample :
    createLinkOwned [{ owner := "alice", url := "https://x.example" }]
        "bob" "https://x.example" = .duplicate
    ∧ ¬ ∃ r ∈ [{ owner := "alice", url := "https://x.example" : OwnedLink}],
        r.owner = "bob" ∧ r.url = "https://x.example" := by
  constructor
  · decide
  · decide

/-- C2 (amended): uniqueness of url is global rather than per owner: a
create with a non-empty url is rejected as a duplicate exactly when some
record with that url already exists, regardless of which caller created
it, and a successful create preserves the invariant that stored urls are
pairwise distinct (which entails uniqueness of the url-owner pair). -/
theorem C2_global_url_uniqueness (store : List OwnedLink) (requester url : String)
    (hurl : url ≠ "") :
    (createLinkOwned store requester url = .duplicate ↔ ∃ r ∈ store, r.url = url)
    ∧ (∀ store', createLinkOwned store requester url = .created store' →
        (store.map (fun r => r.url)).Nodup → (store'.map (fun r => r.url)).Nodup) := by
  unfold createLinkOwned
  rw [if_neg (fun h => hurl h)]
  constructor
  · by_cases hany : store.any (fun r => r.url == url) = true
    · rw [if_pos hany]
      simp only [List.any_eq_true, beq_iff_eq] at hany
      exact ⟨fun _ => hany, fun _ => rfl⟩
    · rw [if_neg hany]
      simp only [List.any_eq_true, beq_iff_eq] at hany
      constructor
      · intro h
        cases h
      · intro h
        exact absurd h hany
  · intro store' hcr hnd
    by_cases hany : store.any (fun r => r.url == url) = true
    · rw [if_pos hany] at hcr
      cases hcr
    · rw [if_neg hany] at hcr
      simp only [List.any_eq_true, beq_iff_eq] at hany
      cases hcr
      rw [List.map_append, List.map_singleton]
      simp only [List.nodup_append, List.nodup_singleton, true_and]
      refine ⟨hnd, ?_⟩
      intro x hx
      simp only [List.mem_map] at hx
      obtain ⟨r, hr, rfl⟩ := hx
      simp only [List.mem_singleton]
      exact fun h => hany ⟨r, hr, h⟩

/-- C2 witness: the amended theorem applied to a one-record store lets a
create on behalf of a second caller be rejected as a duplicate of the
record saved by the first. -/
theorem C2_global_url_uniqueness_witness :
    ("https://x.example" ≠ "")
    ∧ createLinkOwned [{ owner := "alice", url := "https://x.example" }]
        "carol" "https://x.example" = .duplicate :=
  ⟨by decide,
   (C2_global_url_uniqueness [{ owner := "alice", url := "https://x.example" }]
       "carol" "https://x.example" (by decide)).1.mpr
     ⟨{ owner := "alice", url := "https://x.example" }, by decide, rfl⟩⟩

end Linkary
